import Mathlib

/-!
Shallow embedding of the query-resolution pipeline of the ChatBot_RAG
repository, together with theorems settling the frozen claims about it.

The embedded code is:
  * `ResponseFormatter` and `ChatService.process_message`
    (src/app/services/chat_service.py),
  * `expand_query`, `get_rag_chain`'s prompt and `query_rag_system`
    (src/app/rag_engine/query.py, src/app/rag_engine/Query/query_expander.py).

External collaborators (the embedding model, the Chroma vector store, the
language model behind `chain.invoke` / `llm.invoke`, and the Tavily
`search_web` helper) are modelled as per-call outcome oracles carried in an
environment record: each oracle is the value the collaborator returns for
the one inbound question under consideration, or the exception it raises.
`search_web` itself catches every internal exception and returns `None`
(src/app/websearch/tavily_tool.py), so its outcome is an `Option`; the
caller's subsequent attribute access on `None` raises, which we model at
the call sites that perform it.

Python string primitives (`str.lower`, `str.strip`, `str.split`, the `in`
substring test, `"\n".join`) are modelled character-list-wise so that they
evaluate by kernel reduction; `str.lower`/`str.strip` are modelled on the
ASCII range, which covers every string the claims mention.
-/

/-- Model of Python `str.lower` (ASCII case folding). -/
def lowerStr (s : String) : String := ⟨s.data.map Char.toLower⟩

/-- Model of the Python substring test `needle in hay`. -/
def containsSubstr (hay needle : String) : Bool :=
  hay.data.tails.any (fun t => needle.data.isPrefixOf t)

/-- Model of Python `str.strip`: drop leading and trailing whitespace. -/
def stripStr (s : String) : String :=
  ⟨((s.data.dropWhile Char.isWhitespace).reverse.dropWhile Char.isWhitespace).reverse⟩

/-- Model of Python `str.split(sep)` for a one-character separator. -/
def splitChar (sep : Char) (s : String) : List String :=
  (s.data.splitOn sep).map (fun d => (⟨d⟩ : String))

/-- The lines of a string: the pieces obtained by splitting on `'\n'`. -/
def linesOf (s : String) : List String := splitChar '\n' s

/-- Model of Python `sep.join(pieces)`. -/
def joinWith (sep : String) : List String → String
  | [] => ""
  | [a] => a
  | a :: b :: rest => a ++ sep ++ joinWith sep (b :: rest)

/-- ResponseFormatter.detect_format_request (chat_service.py lines 23-36):
keyword heuristics mapping the prompt to a format label. -/
def detect_format_request (prompt : String) : String :=
  let p := lowerStr prompt
  if ["bullet", "points", "list"].any (fun w => containsSubstr p w) then "bullets"
  else if ["table", "columns", "rows"].any (fun w => containsSubstr p w) then "table"
  else if containsSubstr p "summary" then "summary"
  else if ["detailed", "explain"].any (fun w => containsSubstr p w) then "detailed"
  else if ["compare", "versus"].any (fun w => containsSubstr p w) then "comparison"
  else "default"

/-- The sentence list `[s.strip() for s in content.split('.') if s.strip()]`
computed by `_to_bullets` and `_to_summary` (chat_service.py lines 54, 67). -/
def sentences_of (content : String) : List String :=
  ((splitChar '.' content).map stripStr).filter (fun s => s ≠ "")

/-- ResponseFormatter._to_bullets (chat_service.py lines 52-55). -/
def to_bullets (content : String) : String :=
  let sentences := sentences_of content
  if sentences.length > 1 then
    joinWith "\n" ((sentences.take 5).map (fun s => "• " ++ s))
  else content

/-- ResponseFormatter._to_table (chat_service.py lines 57-63). -/
def to_table (content : String) (_prompt : String) : String :=
  let lines := splitChar '\n' content
  "| Aspect | Details |\n|--------|---------|\n" ++
    String.join ((lines.take 5).map (fun l => "| Point | " ++ stripStr l ++ " |\n"))

/-- ResponseFormatter._to_summary (chat_service.py lines 65-68). -/
def to_summary (content : String) : String :=
  let sentences := sentences_of content
  if sentences.length > 2 then "**Summary**: " ++ (sentences.head?.getD "") ++ "..." else content

/-- ResponseFormatter._to_detailed (chat_service.py lines 70-72). -/
def to_detailed (content : String) : String :=
  "**Detailed Explanation**:\n" ++ content

/-- ResponseFormatter._to_comparison (chat_service.py lines 74-76). -/
def to_comparison (content : String) : String :=
  "**Comparison**:\n" ++ content

/-- ResponseFormatter.format_response (chat_service.py lines 38-50). -/
def format_response (content : String) (format_type : String) (prompt : String) : String :=
  if format_type = "bullets" then to_bullets content
  else if format_type = "table" then to_table content prompt
  else if format_type = "summary" then to_summary content
  else if format_type = "detailed" then to_detailed content
  else if format_type = "comparison" then to_comparison content
  else content

/-- The static expansion table of `expand_query`
(query_expander.py lines 6-13, identically in query.py lines 24-31). -/
def expansions : List (String × List String) :=
  [("ai-driven de novo drug discovery",
    ["artificial intelligence drug design",
     "machine learning drug discovery",
     "de novo molecule design",
     "ai drug development"])]

/-- expand_query (query_expander.py lines 4-18, identically in query.py
lines 22-36): start from the lowercased query and append the synonym list
of every table key that occurs in it as a substring. -/
def expand_query (query : String) : List String :=
  let q := lowerStr query
  expansions.foldl (fun acc kv => if containsSubstr q kv.1 then acc ++ kv.2 else acc) [q]

/-- The distance-to-similarity conversion `1 - (dist / 2)` used by
`process_message` (chat_service.py lines 196) and `search_content`
(line 97). -/
def similarity (dist : ℚ) : ℚ := 1 - dist / 2

/-- The score clamp `max(0, min(1, score))` used by `query_rag_system`
(query.py lines 64-66). -/
def clamp01 (x : ℚ) : ℚ := max 0 (min 1 x)

/-- A retrieved chunk as `process_message` consumes it: document text, raw
distance, and the optional `source` entry of its metadata dict. -/
structure Chunk where
  doc : String
  dist : ℚ
  source : Option String
deriving DecidableEq

/-- One entry of a Tavily `results` list; `url` is `none` when the dict has
no `"url"` key. -/
structure WebItem where
  url : Option String
deriving DecidableEq

/-- A Tavily response dict: optional `answer` entry plus `results` list. -/
structure WebResult where
  answer : Option String
  results : List WebItem
deriving DecidableEq

/-- Per-call collaborator outcomes for one `process_message` invocation:
`retrieval` is the outcome of `embed_query` plus `chroma_client.query_docs`
(zipped into chunks), `llm` the outcome of `chain.invoke`, and `web` the
value `search_web` returns (`none` both when the key is missing and when
any internal error occurred, per tavily_tool.py). -/
structure Env where
  retrieval : Except Unit (List Chunk)
  llm : Except Unit String
  web : Option WebResult

/-- The dictionary `process_message` returns (chat_service.py lines
236-244), minus the wall-clock `response_time` and the constant empty
`tags`, which no claim mentions. -/
structure AnswerResult where
  content : String
  sources : List String
  source_type : String
  format_used : String
  doc_ids : List String
deriving DecidableEq

/-- The `relevant_docs` computation of `process_message` (chat_service.py
lines 193-199): on success keep the chunks whose similarity exceeds 0.7;
a retrieval exception is caught and yields the empty list. -/
def relevant_docs (retrieval : Except Unit (List Chunk)) : List Chunk :=
  match retrieval with
  | Except.error _ => []
  | Except.ok chunks => chunks.filter (fun c => similarity c.dist > 7/10)

/-- The insufficiency indicator list of `process_message`
(chat_service.py line 208). -/
def indicators : List String := ["no information", "not found", "unknown"]

/-- The answer-based sufficiency test of `process_message`
(chat_service.py line 209): `any(ind in rag_answer.lower() for ind in indicators)`. -/
def answer_insufficient (rag_answer : String) : Bool :=
  indicators.any (fun ind => containsSubstr (lowerStr rag_answer) ind)

/-- The comprehension `[r["url"] for r in results]` (chat_service.py lines
214 and 226): the subscript raises `KeyError` on a dict without a `"url"`
key, modelled as `Except.error`. -/
def urlsOf (results : List WebItem) : Except Unit (List String) :=
  results.mapM (fun r =>
    match r.url with
    | some u => Except.ok u
    | none => (Except.error () : Except Unit String))

/-- The local branch of `process_message` (chat_service.py lines 205-221),
entered after `chain.invoke` returned `rag_answer`. When the answer trips
an insufficiency indicator, the web fallback runs inside a try/except
whose handler keeps the local answer and the `"local"` source type; the
handler fires both when `search_web` returned `None` (the subsequent
`.get` raises `AttributeError`) and when a result dict lacks `"url"` (the
subscript raises `KeyError`). Python's set `{meta.get("source", "") ...}`
is modelled as first-occurrence deduplication; only its extent matters to
the claims. First, the inner web-fallback attempt on a non-`None`
`search_web` response (chat_service.py lines 212-215). -/
def hybridAttempt (rag_answer : String) (w : WebResult) :
    String × List String × String :=
  match urlsOf w.results with
  | Except.error _ => (rag_answer, [], "local")
  | Except.ok urls =>
    ("📚 " ++ rag_answer ++ "\n\n🌐 " ++ w.answer.getD "", urls.take 2, "hybrid")

def localBranch (relevant : List Chunk) (rag_answer : String)
    (web : Option WebResult) : String × List String × String :=
  if answer_insufficient rag_answer then
    match web with
    | none => (rag_answer, [], "local")
    | some w => hybridAttempt rag_answer w
  else
    (rag_answer, (relevant.map (fun c => c.source.getD "")).dedup, "local")

/-- The `else` branch of `process_message` (chat_service.py lines 222-231):
no candidate passed the threshold, so answer from the web; the handler of
its try/except fires both when `search_web` returned `None` and when a
result dict lacks `"url"`, producing the canned answer with
source_type `"error"`. First, the attempt on a non-`None` `search_web`
response (chat_service.py lines 225-227). -/
def webAttempt (w : WebResult) : String × List String × String :=
  match urlsOf w.results with
  | Except.error _ => ("I don't have enough information.", [], "error")
  | Except.ok urls =>
    (w.answer.getD "I don't have enough information.", urls.take 2, "web")

def webBranch (web : Option WebResult) : String × List String × String :=
  match web with
  | none => ("I don't have enough information.", [], "error")
  | some w => webAttempt w

/-- The answer/sources/source_type block of `process_message`
(chat_service.py lines 201-231), parametrised by the already-computed
`relevant_docs` list and the two remaining oracles. `chain.invoke` sits
outside any try/except, so its failure propagates out of the block. -/
def routeWith (relevant : List Chunk) (llmOut : Except Unit String)
    (web : Option WebResult) : Except Unit (String × List String × String) :=
  if relevant ≠ [] then
    match llmOut with
    | Except.error e => Except.error e
    | Except.ok rag_answer => Except.ok (localBranch relevant rag_answer web)
  else Except.ok (webBranch web)

/-- The routing block applied to an environment's oracles. -/
def route (env : Env) : Except Unit (String × List String × String) :=
  routeWith (relevant_docs env.retrieval) env.llm env.web

/-- ChatService.process_message (chat_service.py lines 186-244): resolve
the format, run the routing block, post-format the answer, and assemble
the result record. -/
def process_message (env : Env) (message_content : String)
    (format_preference : String) : Except Unit AnswerResult :=
  let format_type :=
    if format_preference = "auto" then detect_format_request message_content
    else format_preference
  match route env with
  | Except.error e => Except.error e
  | Except.ok (answer, sources, source_type) =>
    Except.ok ⟨format_response answer format_type message_content,
      sources, source_type, format_type,
      (relevant_docs env.retrieval).map (fun c => c.source.getD "")⟩

/-- The fixed sentinel the local-context prompt of `get_rag_chain`
instructs the model to emit (query.py lines 40-45). -/
def localPromptSentinel : String := "I don't have enough information."

/-- The local-context prompt template of `get_rag_chain`
(query.py lines 40-45). -/
def localContextPrompt : String :=
  "Answer using ONLY provided context. If insufficient, say \"I don't have enough information.\" Cite sources in [source] format.\nQuestion: {question}\nContext: {context}\nAnswer:"

/-- One `(Document, score)` pair returned by
`similarity_search_with_relevance_scores` in `query_rag_system`
(query.py line 62): page content, optional metadata `source`, and the
relevance score. -/
structure SChunk where
  page_content : String
  source : Option String
  score : ℚ
deriving DecidableEq

/-- The tuple `(doc.page_content, doc.metadata.get('source', 'unknown'), score)`
built by the `unique_chunks` set comprehension (query.py line 63). -/
def tripleOf (c : SChunk) : String × String × ℚ :=
  (c.page_content, c.source.getD "unknown", c.score)

/-- The body of the retrieval try-block of `query_rag_system` (query.py
lines 59-67). After `unique_chunks` is built, `relevant_chunks` destructures
each triple as `(doc, _, score)`, so its elements are plain strings; the
following `chunk_info` comprehension then evaluates `doc.page_content` on
those strings, which raises `AttributeError` whenever `unique_chunks` is
non-empty. Python's set comprehension is modelled as first-occurrence
deduplication of the triples. -/
def retrieveBody (all_chunks : List SChunk) : Except Unit (List String) :=
  let unique_chunks := (all_chunks.map tripleOf).dedup
  let relevant_chunks :=
    (unique_chunks.filter (fun t => clamp01 t.2.2 > 1/10)).map (fun t => t.1)
  if unique_chunks = [] then Except.ok relevant_chunks else Except.error ()

/-- The `relevant_chunks` value after the try/except of `query_rag_system`
(query.py lines 58-71): the per-expansion searches are concatenated and the
body is run; any exception (a search failure, or the `AttributeError` of
`chunk_info`) is caught and leaves `relevant_chunks = []`. -/
def retrieve_chunks (search : String → Except Unit (List SChunk))
    (queries : List String) : List String :=
  match queries.mapM search with
  | Except.error _ => []
  | Except.ok per_query =>
    match retrieveBody per_query.flatten with
    | Except.error _ => []
    | Except.ok relevant_chunks => relevant_chunks

/-- Per-call collaborator outcomes for one `query_rag_system` invocation:
`search` maps each expanded query to the outcome of
`similarity_search_with_relevance_scores`, `llm` is the outcome of
`llm.invoke` on the no-context fallback prompt, and `web` is the value
`search_web` returns. -/
structure QEnv where
  search : String → Except Unit (List SChunk)
  llm : Except Unit String
  web : Option WebResult

/-- The triple `query_rag_system` hands to `log_eval` (query.py line 108);
the function's return value is the `full_answer` field alone. -/
structure QResult where
  full_answer : String
  source : String
  citations : List String
deriving DecidableEq

/-- Python truthiness of `web_response.get("answer")` (query.py line 83):
false when the key is absent or the answer is the empty string. -/
def webAnswerTruthy (w : WebResult) : Bool :=
  match w.answer with
  | none => false
  | some s => s != ""

/-- The body of the fallback try-block of `query_rag_system` (query.py
lines 81-101): when `search_web` returned a truthy answer, build the cited
web answer; otherwise invoke the raw LLM, whose failure propagates to the
enclosing handler. `web = none` makes `not web_response` true. -/
def fallbackBody (env : QEnv) : Except Unit QResult :=
  match env.web with
  | none =>
    match env.llm with
    | Except.error e => Except.error e
    | Except.ok ans => Except.ok ⟨ans, "llm", []⟩
  | some w =>
    if webAnswerTruthy w then
      let urls := w.results.filterMap (fun r => r.url)
      let citation :=
        match urls with
        | [] => ""
        | u :: _ => "\n\n🔗 According to: " ++ u
      Except.ok ⟨w.answer.getD "" ++ citation, "web", urls.take 1⟩
    else
      match env.llm with
      | Except.error e => Except.error e
      | Except.ok ans => Except.ok ⟨ans, "llm", []⟩

/-- query_rag_system (query.py lines 50-109). When `relevant_chunks` is
non-empty the local branch builds the context by evaluating
`doc.page_content` on plain strings, an uncaught `AttributeError`; the
fallback branch is wrapped in a try/except whose handler substitutes the
fixed insufficient-information answer with source `"llm"`. -/
def query_rag_system (env : QEnv) (question : String) : Except Unit QResult :=
  let relevant_chunks := retrieve_chunks env.search (expand_query question)
  if relevant_chunks ≠ [] then
    Except.error ()
  else
    match fallbackBody env with
    | Except.ok r => Except.ok r
    | Except.error _ => Except.ok ⟨"I don't have enough information.", "llm", []⟩

/-- Evaluation helper: a single retrieved chunk above the 0.7 similarity
threshold survives the `relevant_docs` filter. -/
theorem relevant_docs_single (c : Chunk) (h : similarity c.dist > 7/10) :
    relevant_docs (Except.ok [c]) = [c] := by
  simp only [relevant_docs, List.filter_cons, List.filter_nil, decide_eq_true h]
  simp

/-- In `query_rag_system`, retrieval always degrades to the empty list:
either a search call failed, or `unique_chunks` is empty, or the
`chunk_info` comprehension raised `AttributeError`. -/
theorem retrieve_chunks_nil (search : String → Except Unit (List SChunk))
    (queries : List String) : retrieve_chunks search queries = [] := by
  unfold retrieve_chunks
  cases h : queries.mapM search with
  | error e => rfl
  | ok per_query =>
    simp only [retrieveBody]
    by_cases hu : ((per_query.flatten.map tripleOf).dedup) = []
    · rw [if_pos hu, hu]
      rfl
    · rw [if_neg hu]

/-- A string whose characters avoid `'\n'` is a single line. -/
theorem linesOf_single (a : String) (h : ('\n') ∉ a.data) : linesOf a = [a] := by
  unfold linesOf splitChar
  rw [List.splitOn, List.splitOnP_eq_single]
  · rfl
  · intro x hx hbeq
    have hxeq : x = '\n' := by rwa [beq_iff_eq] at hbeq
    exact h (hxeq ▸ hx)

/-- Splitting on `'\n'` undoes `joinWith "\n"` on a non-empty list of
newline-free strings. -/
theorem linesOf_joinWith (l : List String) (hne : l ≠ [])
    (hn : ∀ s ∈ l, ('\n') ∉ s.data) :
    linesOf (joinWith "\n" l) = l := by
  induction l with
  | nil => exact absurd rfl hne
  | cons a t ih =>
    cases t with
    | nil =>
      exact linesOf_single a (hn a (List.mem_cons_self a []))
    | cons b t2 =>
      have hrest : linesOf (joinWith "\n" (b :: t2)) = b :: t2 :=
        ih (List.cons_ne_nil b t2) (fun s hs => hn s (List.mem_cons_of_mem a hs))
      have hdata : (a ++ "\n" ++ joinWith "\n" (b :: t2)).data =
          a.data ++ '\n' :: (joinWith "\n" (b :: t2)).data := by
        simp [String.data_append]
      show linesOf (a ++ "\n" ++ joinWith "\n" (b :: t2)) = a :: b :: t2
      unfold linesOf splitChar
      rw [hdata, List.splitOn, List.splitOnP_first _ _ ?hnotin '\n' rfl]
      · have : (List.splitOnP (fun c => c == '\n') (joinWith "\n" (b :: t2)).data).map
            (fun d => (⟨d⟩ : String)) = b :: t2 := by
          have := hrest
          unfold linesOf splitChar at this
          rwa [List.splitOn] at this
        simp only [List.map]
        rw [this]
      case hnotin =>
        intro x hx hbeq
        have hxa : x = '\n' := by rwa [beq_iff_eq] at hbeq
        exact (hn a (List.mem_cons_self a _)) (hxa ▸ hx)

/-- C2: the local-context prompt of `get_rag_chain` does instruct the model
to emit the fixed sentinel, but the answer-based sufficiency check of
`process_message` does not classify that sentinel as insufficient — no
phrase of its indicator list is a substring of the lowercased sentinel. -/
theorem C2_sentinel_not_flagged :
    containsSubstr localContextPrompt localPromptSentinel = true ∧
    answer_insufficient localPromptSentinel = false :=
  ⟨by decide, by decide⟩

/-- C6: on the raw-distance domain `[0, 2]`, the derived similarity
`1 - d/2` — clamped to `[0, 1]` or not — is strictly decreasing. -/
theorem C6_similarity_strict_antitone (d1 d2 : ℚ) (h1 : 0 ≤ d1)
    (h12 : d1 < d2) (h2 : d2 ≤ 2) :
    clamp01 (similarity d2) < clamp01 (similarity d1) ∧
    similarity d2 < similarity d1 := by
  have hs1le : similarity d1 ≤ 1 := by unfold similarity; linarith
  have hs1ge : 0 ≤ similarity d1 := by unfold similarity; linarith
  have hs2le : similarity d2 ≤ 1 := by unfold similarity; linarith
  have hs2ge : 0 ≤ similarity d2 := by unfold similarity; linarith
  have hlt : similarity d2 < similarity d1 := by unfold similarity; linarith
  refine ⟨?_, hlt⟩
  unfold clamp01
  rw [min_eq_right hs1le, max_eq_right hs1ge, min_eq_right hs2le,
    max_eq_right hs2ge]
  exact hlt

/-- Witness for C6 at the concrete distances 0 and 2. -/
theorem C6_witness :
    clamp01 (similarity 2) < clamp01 (similarity 0) ∧
    similarity 2 < similarity 0 :=
  C6_similarity_strict_antitone 0 2 (le_refl 0) zero_lt_two (le_refl 2)

/-- C7: `expand_query` always starts with the lowercased input query, and
when no canonical phrase of the expansion table occurs in the lowercased
query it returns exactly the singleton of the lowercased query. -/
theorem C7_expand_query_contract (query : String) :
    (expand_query query).head? = some (lowerStr query) ∧
    ((∀ kv ∈ expansions, containsSubstr (lowerStr query) kv.1 = false) →
      expand_query query = [lowerStr query]) := by
  unfold expand_query expansions
  cases h : containsSubstr (lowerStr query) "ai-driven de novo drug discovery" with
  | false =>
    exact ⟨by simp [List.foldl, h], fun _ => by simp [List.foldl, h]⟩
  | true =>
    refine ⟨by simp [List.foldl, h], fun hno => ?_⟩
    simp only [List.mem_singleton, forall_eq] at hno
    rw [h] at hno
    exact Bool.noConfusion hno

/-- Witness for C7 at the concrete query "hello". -/
theorem C7_witness :
    (expand_query "hello").head? = some (lowerStr "hello") ∧
    expand_query "hello" = [lowerStr "hello"] :=
  ⟨(C7_expand_query_contract "hello").1,
   (C7_expand_query_contract "hello").2 (by decide)⟩

/-- C10: with at most one non-empty sentence, the bullets formatter
returns the content unchanged. -/
theorem C10_bullets_identity_short (content prompt : String)
    (h : (sentences_of content).length ≤ 1) :
    format_response content "bullets" prompt = content := by
  unfold format_response
  rw [if_pos rfl]
  simp only [to_bullets]
  rw [if_neg (by omega)]

/-- Witness for C10 at a one-sentence content. -/
theorem C10_witness : format_response "hello world" "bullets" "" = "hello world" :=
  C10_bullets_identity_short "hello world" "" (by decide)

/-- C8 counterexample: the content "a\nb. c. d." consists of exactly three
non-empty '.'-separated sentences, yet the bullets formatter produces four
lines (the embedded newline of the first sentence survives), not three. -/
theorem C8_counterexample :
    (sentences_of "a\nb. c. d.").length = 3 ∧
    (linesOf (format_response "a\nb. c. d." "bullets" "")).length = 4 :=
  ⟨by decide, by decide⟩

/-- C8 amended: for a content with exactly three non-empty sentences none
of which contains a newline, the bullets formatter output splits into
exactly the three bullet-prefixed lines. -/
theorem C8_bullets_three_lines (content prompt : String)
    (h3 : (sentences_of content).length = 3)
    (hn : ∀ s ∈ sentences_of content, ('\n') ∉ s.data) :
    linesOf (format_response content "bullets" prompt) =
      (sentences_of content).map (fun s => "• " ++ s) ∧
    (linesOf (format_response content "bullets" prompt)).length = 3 := by
  obtain ⟨a, b, c, hl⟩ : ∃ a b c, sentences_of content = [a, b, c] := by
    rcases hsc : sentences_of content with _ | ⟨a, _ | ⟨b, _ | ⟨c, _ | ⟨d, t⟩⟩⟩⟩ <;>
      rw [hsc] at h3 <;> simp at h3
    exact ⟨a, b, c, rfl⟩
  have hform : format_response content "bullets" prompt =
      joinWith "\n" ["• " ++ a, "• " ++ b, "• " ++ c] := by
    unfold format_response
    rw [if_pos rfl]
    simp only [to_bullets, hl]
    rw [if_pos (by simp)]
    rfl
  have hn3 : ∀ x ∈ [a, b, c], ('\n') ∉ x.data := by rw [← hl]; exact hn
  have hlines : linesOf (joinWith "\n" ["• " ++ a, "• " ++ b, "• " ++ c]) =
      ["• " ++ a, "• " ++ b, "• " ++ c] := by
    apply linesOf_joinWith _ (by simp)
    intro s hs
    have hmem : s = "• " ++ a ∨ s = "• " ++ b ∨ s = "• " ++ c := by simpa using hs
    have hbul : ('\n') ∉ "• ".data := by decide
    rcases hmem with h1 | h1 | h1 <;> subst h1 <;>
      · rw [String.data_append]
        intro hmem2
        rcases List.mem_append.mp hmem2 with hL | hR
        · exact hbul hL
        · first
          | exact hn3 a (by simp) hR
          | exact hn3 b (by simp) hR
          | exact hn3 c (by simp) hR
  rw [hform, hlines, hl]
  exact ⟨rfl, rfl⟩

/-- On a sufficient local answer, the local branch keeps the answer, cites
the deduplicated chunk sources, and reports `"local"`. -/
theorem localBranch_sufficient (relevant : List Chunk) (rag_answer : String)
    (web : Option WebResult) (hi : answer_insufficient rag_answer = false) :
    localBranch relevant rag_answer web =
      (rag_answer, (relevant.map (fun c => c.source.getD "")).dedup, "local") := by
  unfold localBranch
  rw [if_neg (by simp [hi])]

/-- On an insufficient local answer whose web fallback fails, the local
branch keeps the local answer with no citations and reports `"local"`. -/
theorem localBranch_insufficient_webfail (relevant : List Chunk)
    (rag_answer : String) (web : Option WebResult)
    (hi : answer_insufficient rag_answer = true)
    (hw : web = none ∨ ∃ w, web = some w ∧ urlsOf w.results = Except.error ()) :
    localBranch relevant rag_answer web = (rag_answer, [], "local") := by
  unfold localBranch
  rw [if_pos hi]
  rcases hw with h | ⟨w, hww, hu⟩
  · rw [h]
  · subst hww
    show hybridAttempt rag_answer w = (rag_answer, [], "local")
    unfold hybridAttempt
    rw [hu]

/-- The hybrid attempt only ever reports `"local"` or `"hybrid"`. -/
theorem hybridAttempt_source_type (rag_answer : String) (w : WebResult) :
    (hybridAttempt rag_answer w).2.2 = "local" ∨
    (hybridAttempt rag_answer w).2.2 = "hybrid" := by
  unfold hybridAttempt
  cases hu : urlsOf w.results with
  | error e => exact Or.inl rfl
  | ok urls => exact Or.inr rfl

/-- The local branch only ever reports `"local"` or `"hybrid"`. -/
theorem localBranch_source_type (relevant : List Chunk) (rag_answer : String)
    (web : Option WebResult) :
    (localBranch relevant rag_answer web).2.2 = "local" ∨
    (localBranch relevant rag_answer web).2.2 = "hybrid" := by
  unfold localBranch
  by_cases hi : answer_insufficient rag_answer = true
  · rw [if_pos hi]
    cases web with
    | none => exact Or.inl rfl
    | some w => exact hybridAttempt_source_type rag_answer w
  · rw [if_neg hi]
    exact Or.inl rfl

/-- The web attempt only ever reports `"web"` or `"error"`. -/
theorem webAttempt_source_type (w : WebResult) :
    (webAttempt w).2.2 = "web" ∨ (webAttempt w).2.2 = "error" := by
  unfold webAttempt
  cases hu : urlsOf w.results with
  | error e => exact Or.inr rfl
  | ok urls => exact Or.inl rfl

/-- The web branch only ever reports `"web"` or `"error"`. -/
theorem webBranch_source_type (web : Option WebResult) :
    (webBranch web).2.2 = "web" ∨ (webBranch web).2.2 = "error" := by
  unfold webBranch
  cases web with
  | none => exact Or.inr rfl
  | some w => exact webAttempt_source_type w

/-- When `process_message` succeeds, its `sources` and `source_type`
fields are exactly what the routing block produced. -/
theorem route_fields_of_ok (env : Env) (m p : String) (r : AnswerResult)
    (h : process_message env m p = Except.ok r) :
    ∃ ans, route env = Except.ok (ans, r.sources, r.source_type) := by
  unfold process_message at h
  cases hr : route env with
  | error e => rw [hr] at h; exact Except.noConfusion h
  | ok tri =>
    obtain ⟨a, s, t⟩ := tri
    rw [hr] at h
    have h3 := Except.ok.inj h
    exact ⟨a, by rw [← h3]⟩

/-- A successful `routeWith` is an application of one of the two branch
functions. -/
theorem routeWith_ok_cases (relevant : List Chunk) (llmOut : Except Unit String)
    (web : Option WebResult) (tri : String × List String × String)
    (h : routeWith relevant llmOut web = Except.ok tri) :
    (∃ rag_answer, llmOut = Except.ok rag_answer ∧
      tri = localBranch relevant rag_answer web) ∨
    tri = webBranch web := by
  unfold routeWith at h
  by_cases hrel : relevant ≠ []
  · rw [if_pos hrel] at h
    cases hllm : llmOut with
    | error e => rw [hllm] at h; exact Except.noConfusion h
    | ok rag_answer =>
      rw [hllm] at h
      exact Or.inl ⟨rag_answer, rfl, (Except.ok.inj h).symm⟩
  · rw [if_neg hrel] at h
    exact Or.inr (Except.ok.inj h).symm

/-- The routing block succeeds whenever the LLM oracle succeeds on a
non-empty relevant list; with an empty relevant list it always succeeds. -/
theorem routeWith_isOk (relevant : List Chunk) (llmOut : Except Unit String)
    (web : Option WebResult) (h : relevant ≠ [] → llmOut.isOk = true) :
    (routeWith relevant llmOut web).isOk = true := by
  unfold routeWith
  by_cases hrel : relevant ≠ []
  · rw [if_pos hrel]
    cases hllm : llmOut with
    | error e =>
      have hok := h hrel
      rw [hllm] at hok
      exact Bool.noConfusion hok
    | ok rag_answer => rfl
  · rw [if_neg hrel]
    rfl

/-- `process_message` returns a result whenever `chain.invoke` does not
fail on a non-empty relevant list. -/
theorem process_message_isOk (env : Env) (m p : String)
    (h : relevant_docs env.retrieval ≠ [] → env.llm.isOk = true) :
    (process_message env m p).isOk = true := by
  unfold process_message route
  cases hr : routeWith (relevant_docs env.retrieval) env.llm env.web with
  | error e =>
    have hok := routeWith_isOk (relevant_docs env.retrieval) env.llm env.web h
    rw [hr] at hok
    exact Bool.noConfusion hok
  | ok tri =>
    obtain ⟨a, s, t⟩ := tri
    rfl

/-- `query_rag_system` always returns a result: retrieval always degrades
to no relevant chunks, so the uncaught local branch is dead code and the
fallback branch recovers from every failure. -/
theorem query_rag_system_isOk (env : QEnv) (q : String) :
    (query_rag_system env q).isOk = true := by
  simp only [query_rag_system]
  rw [retrieve_chunks_nil, if_neg (by simp)]
  cases fallbackBody env <;> rfl

/-- Chunk and environment of the C1 counterexample: retrieval succeeds
with one chunk of similarity 1 > 0.7, and `chain.invoke` raises. -/
def chunkA : Chunk := ⟨"alpha passage", 0, some "a.txt"⟩

def envA : Env := ⟨Except.ok [chunkA], Except.error (), none⟩

/-- C1 counterexample: with a relevant local candidate and a failing
language-model invocation, `process_message` raises to its caller instead
of returning an answer value. -/
theorem C1_counterexample :
    process_message envA "What is alpha" "auto" = Except.error () := by
  have h : relevant_docs envA.retrieval = [chunkA] :=
    relevant_docs_single chunkA (by norm_num [similarity, chunkA])
  unfold process_message route
  rw [h]
  rfl

/-- C1 amended: `query_rag_system` never raises, and `process_message`
never raises provided the language-model invocation succeeds whenever some
local candidate passed the relevance threshold; retrieval and web-search
failures alone never make either operation raise. -/
theorem C1_no_raise_amended :
    (∀ (env : Env) (m p : String),
      (relevant_docs env.retrieval ≠ [] → env.llm.isOk = true) →
      (process_message env m p).isOk = true) ∧
    (∀ (qenv : QEnv) (q : String), (query_rag_system qenv q).isOk = true) :=
  ⟨process_message_isOk, query_rag_system_isOk⟩

/-- Witness for the amended C1: a failed retrieval and a failed web search
still produce a result, in both pipelines. -/
theorem C1_witness :
    (process_message ⟨Except.error (), Except.ok "hi", none⟩ "q" "auto").isOk = true ∧
    (query_rag_system ⟨fun _ => Except.ok [], Except.ok "hi", none⟩ "q").isOk = true :=
  ⟨C1_no_raise_amended.1 ⟨Except.error (), Except.ok "hi", none⟩ "q" "auto"
    (fun _ => rfl),
   C1_no_raise_amended.2 ⟨fun _ => Except.ok [], Except.ok "hi", none⟩ "q"⟩

/-- Chunk and environment of the C4 counterexample: one passing chunk
(similarity 3/4 > 0.7), failing LLM, available web search. -/
def chunkB : Chunk := ⟨"beta passage", 1/2, some "b.txt"⟩

def envB : Env := ⟨Except.ok [chunkB], Except.error (),
  some ⟨some "web beta answer", []⟩⟩

/-- C4 counterexample: a failing language-model invocation during local
answer synthesis propagates out of `process_message`; it is not converted
into the canned fallback answer with source_type "error". -/
theorem C4_counterexample :
    process_message envB "tell me about beta" "auto" = Except.error () := by
  have h : relevant_docs envB.retrieval = [chunkB] :=
    relevant_docs_single chunkB (by norm_num [similarity, chunkB])
  unfold process_message route
  rw [h]
  rfl

/-- C4 amended: in `process_message` an LLM failure during local-context
synthesis propagates to the caller, and in `query_rag_system` the only
reachable LLM invocation (the no-context fallback) is caught and yields
the fixed fallback string with source `"llm"`, not `"error"`. -/
theorem C4_llm_failure_amended :
    (∀ (env : Env) (m p : String), relevant_docs env.retrieval ≠ [] →
      env.llm = Except.error () → process_message env m p = Except.error ()) ∧
    (∀ (qenv : QEnv) (q : String), qenv.web = none →
      qenv.llm = Except.error () →
      query_rag_system qenv q =
        Except.ok ⟨"I don't have enough information.", "llm", []⟩) := by
  constructor
  · intro env m p hrel hllm
    unfold process_message route routeWith
    rw [if_pos hrel, hllm]
  · intro qenv q hw hllm
    simp only [query_rag_system]
    rw [retrieve_chunks_nil, if_neg (by simp)]
    unfold fallbackBody
    rw [hw, hllm]

/-- Witness for the amended C4 at concrete environments. -/
theorem C4_witness :
    process_message envB "tell me more" "auto" = Except.error () ∧
    query_rag_system ⟨fun _ => Except.ok [], Except.error (), none⟩ "q" =
      Except.ok ⟨"I don't have enough information.", "llm", []⟩ := by
  constructor
  · refine C4_llm_failure_amended.1 envB "tell me more" "auto" ?_ rfl
    show relevant_docs (Except.ok [chunkB]) ≠ []
    rw [relevant_docs_single chunkB (by norm_num [similarity, chunkB])]
    exact List.cons_ne_nil _ _
  · exact C4_llm_failure_amended.2 ⟨fun _ => Except.ok [], Except.error (), none⟩
      "q" rfl rfl

/-- Chunk and environment of the C3 counterexample: one passing chunk, an
LLM answer tripping the indicator "unknown", and a web response carrying
an answer but an empty results list. -/
def chunkC : Chunk := ⟨"gamma passage", 0, some "c.txt"⟩

def envC : Env := ⟨Except.ok [chunkC], Except.ok "unknown",
  some ⟨some "Web says W", []⟩⟩

/-- C3 counterexample: the hybrid path with an empty web results list
returns source_type "hybrid" with an empty citations list, violating the
claimed invariant that empty citations force source_type "llm" or
"error". -/
theorem C3_counterexample :
    (process_message envC "q" "auto").toOption.map AnswerResult.sources =
      some [] ∧
    (process_message envC "q" "auto").toOption.map AnswerResult.source_type =
      some "hybrid" := by
  have h : relevant_docs envC.retrieval = [chunkC] :=
    relevant_docs_single chunkC (by norm_num [similarity, chunkC])
  have heval : process_message envC "q" "auto" =
      Except.ok ⟨"📚 unknown\n\n🌐 Web says W", [], "hybrid", "default",
        ["c.txt"]⟩ := by
    unfold process_message route
    rw [h]
    rfl
  rw [heval]
  exact ⟨rfl, rfl⟩

/-- C3 amended: empty citations no longer force source_type "llm"/"error"
in general — the web and hybrid paths emit empty citations when the web
results list is empty, and the local path does so after a failed web
fallback — but whenever source_type is "local" and the local answer passed
the sufficiency check, the citations list is non-empty. -/
theorem C3_citations_amended (env : Env) (m p a : String) (r : AnswerResult)
    (h : process_message env m p = Except.ok r) (hl : env.llm = Except.ok a)
    (hi : answer_insufficient a = false) (hst : r.source_type = "local") :
    r.sources ≠ [] := by
  obtain ⟨ans, hr⟩ := route_fields_of_ok env m p r h
  unfold route routeWith at hr
  by_cases hrel : relevant_docs env.retrieval ≠ []
  · rw [if_pos hrel, hl] at hr
    have h4 := Except.ok.inj hr
    rw [localBranch_sufficient _ _ _ hi] at h4
    have hsrc : ((relevant_docs env.retrieval).map
        (fun c => c.source.getD "")).dedup = r.sources :=
      congrArg (fun t => t.2.1) h4
    rw [← hsrc]
    intro hnil
    rw [List.dedup_eq_nil, List.map_eq_nil_iff] at hnil
    exact hrel hnil
  · rw [if_neg hrel] at hr
    have h4 := Except.ok.inj hr
    have h5 : (webBranch env.web).2.2 = r.source_type :=
      congrArg (fun t => t.2.2) h4
    rcases webBranch_source_type env.web with hx | hx <;>
      rw [h5, hst] at hx <;> exact absurd hx (by decide)

/-- Chunk and environment of the C3 witness: sufficient local answer. -/
def chunkE : Chunk := ⟨"epsilon passage", 0, some "e.txt"⟩

def envE : Env := ⟨Except.ok [chunkE], Except.ok "Epsilon is a letter", none⟩

/-- Witness for the amended C3: a sufficient local answer carries its
chunk source as a citation. -/
theorem C3_witness :
    (AnswerResult.mk "Epsilon is a letter" ["e.txt"] "local" "default"
      ["e.txt"]).sources ≠ [] := by
  have hrd : relevant_docs envE.retrieval = [chunkE] :=
    relevant_docs_single chunkE (by norm_num [similarity, chunkE])
  have heval : process_message envE "q" "auto" =
      Except.ok ⟨"Epsilon is a letter", ["e.txt"], "local", "default",
        ["e.txt"]⟩ := by
    unfold process_message route
    rw [hrd]
    rfl
  exact C3_citations_amended envE "q" "auto" "Epsilon is a letter" _ heval rfl
    (by decide) rfl

/-- C5: when local candidates passed the threshold, the synthesized answer
trips an insufficiency indicator, and the web fallback fails (a `None`
return from `search_web`, or a `KeyError` on a result without a url), the
pipeline returns the local answer with source_type "local" and no
citations — never "web" or "hybrid". -/
theorem C5_local_on_web_failure (env : Env) (m p a : String)
    (hl : env.llm = Except.ok a) (hi : answer_insufficient a = true)
    (hrel : relevant_docs env.retrieval ≠ [])
    (hw : env.web = none ∨
      ∃ w, env.web = some w ∧ urlsOf w.results = Except.error ()) :
    process_message env m p = Except.ok
      ⟨format_response a (if p = "auto" then detect_format_request m else p) m,
       [], "local",
       (if p = "auto" then detect_format_request m else p),
       (relevant_docs env.retrieval).map (fun c => c.source.getD "")⟩ := by
  have hroute : route env = Except.ok (a, [], "local") := by
    unfold route routeWith
    rw [if_pos hrel, hl]
    exact congrArg Except.ok
      (localBranch_insufficient_webfail (relevant_docs env.retrieval) a env.web hi hw)
  unfold process_message
  rw [hroute]

/-- Chunk and environment of the C5 witness: insufficient local answer
("unknown"), failed web search. -/
def chunkD : Chunk := ⟨"delta passage", 0, some "d.txt"⟩

def envD : Env := ⟨Except.ok [chunkD], Except.ok "unknown", none⟩

/-- Witness for C5 at a concrete environment. -/
theorem C5_witness :
    process_message envD "q" "auto" =
      Except.ok ⟨"unknown", [], "local", "default", ["d.txt"]⟩ := by
  have h := C5_local_on_web_failure envD "q" "auto" "unknown" rfl (by decide)
    (by show relevant_docs (Except.ok [chunkD]) ≠ []
        rw [relevant_docs_single chunkD (by norm_num [similarity, chunkD])]
        exact List.cons_ne_nil _ _)
    (Or.inl rfl)
  have hrd : relevant_docs envD.retrieval = [chunkD] :=
    relevant_docs_single chunkD (by norm_num [similarity, chunkD])
  rw [h, hrd]
  rfl

/-- C9: every result `process_message` returns carries a source_type among
"local", "hybrid", "web" and "error"; the enum value "llm" is never
produced by this operation. -/
theorem C9_source_type_range (env : Env) (m p : String) (r : AnswerResult)
    (h : process_message env m p = Except.ok r) :
    (r.source_type = "local" ∨ r.source_type = "hybrid" ∨
     r.source_type = "web" ∨ r.source_type = "error") ∧
    r.source_type ≠ "llm" := by
  obtain ⟨ans, hr⟩ := route_fields_of_ok env m p r h
  rcases routeWith_ok_cases _ _ _ _ hr with ⟨rag_answer, _, htri⟩ | htri
  · have h5 : (localBranch (relevant_docs env.retrieval) rag_answer env.web).2.2 =
        r.source_type := (congrArg (fun t => t.2.2) htri).symm
    rcases localBranch_source_type (relevant_docs env.retrieval) rag_answer env.web
        with hx | hx <;> rw [h5] at hx
    · exact ⟨Or.inl hx, by rw [hx]; decide⟩
    · exact ⟨Or.inr (Or.inl hx), by rw [hx]; decide⟩
  · have h5 : (webBranch env.web).2.2 = r.source_type :=
      (congrArg (fun t => t.2.2) htri).symm
    rcases webBranch_source_type env.web with hx | hx <;> rw [h5] at hx
    · exact ⟨Or.inr (Or.inr (Or.inl hx)), by rw [hx]; decide⟩
    · exact ⟨Or.inr (Or.inr (Or.inr hx)), by rw [hx]; decide⟩

/-- Environment of the C9 witness: failed retrieval, failed web search. -/
def envF : Env := ⟨Except.error (), Except.ok "zeta", none⟩

/-- Witness for C9 at a concrete environment that produces "error". -/
theorem C9_witness :
    ((AnswerResult.mk "I don't have enough information." [] "error" "default"
        []).source_type = "local" ∨
     (AnswerResult.mk "I don't have enough information." [] "error" "default"
        []).source_type = "hybrid" ∨
     (AnswerResult.mk "I don't have enough information." [] "error" "default"
        []).source_type = "web" ∨
     (AnswerResult.mk "I don't have enough information." [] "error" "default"
        []).source_type = "error") ∧
    (AnswerResult.mk "I don't have enough information." [] "error" "default"
      []).source_type ≠ "llm" :=
  C9_source_type_range envF "q" "auto" _ rfl

/-- Witness for the amended C8 at a concrete three-sentence content. -/
theorem C8_witness :
    linesOf (format_response "One. Two. Three." "bullets" "") =
      (sentences_of "One. Two. Three.").map (fun s => "• " ++ s) ∧
    (linesOf (format_response "One. Two. Three." "bullets" "")).length = 3 :=
  C8_bullets_three_lines "One. Two. Three." "" (by decide) (by decide)
